import Mathlib

/-!
Shallow embedding of `rust-mirror-query` (`src/lib.rs`): the single
operation `get_details` of `ImplQueryImageInterface`, together with the
request it dispatches.  Rust strings are modelled as lists of characters
(`Str`); the HTTP round trip performed by `reqwest` is modelled by an
explicit `SendResult` value describing what `send().await` produced.
-/

set_option linter.unusedVariables false

abbrev Str := List Char

def str (s : String) : Str := s.data

/-- Model of Rust `str::replace` (leftmost, non-overlapping matches of a
non-empty pattern, each replaced by `rep`), written with explicit fuel so
that it computes by kernel reduction.  Any fuel `≥ s.length` gives the
replacement of the whole string; the fuel-`0` case returns `[]` so that
character-removal lemmas hold for every fuel. -/
def replaceAllGo (pat rep : Str) : Nat → Str → Str
  | _, [] => []
  | 0, _ => []
  | fuel + 1, c :: rest =>
    if pat.isPrefixOf (c :: rest) = true ∧ pat ≠ [] then
      rep ++ replaceAllGo pat rep fuel ((c :: rest).drop pat.length)
    else
      c :: replaceAllGo pat rep fuel rest

/-- Rust `s.replace(pat, rep)` for a non-empty pattern `pat`. -/
def replaceAll (s pat rep : Str) : Str := replaceAllGo pat rep s.length s

theorem replaceAll_def (s pat rep : Str) :
    replaceAll s pat rep = replaceAllGo pat rep s.length s := rfl

/-- Validity of one character of an HTTP header value, as checked by
`http::HeaderValue::from_str` on the UTF-8 bytes: horizontal tab, or any
byte that is at least 32 and is not DEL (127).  Characters above 127
encode to bytes ≥ 128, which that check accepts. -/
def headerCharValid (c : Char) : Bool :=
  c.toNat == 9 || (decide (32 ≤ c.toNat) && c.toNat != 127)

/-- `HeaderValue::from_str` succeeds exactly when every character is a
valid header-value character. -/
def headerValueValid (s : Str) : Bool := s.all headerCharValid

/-- The Authorization value built at line 43:
`format!("{} {}", "Bearer", token)`. -/
def bearer (token : Str) : Str := str "Bearer " ++ token

def accept_value : Str :=
  str "application/vnd.docker.distribution.manifest.list.v2+json,application/vnd.oci.image.index.v1+json,application/vnd.oci.image.manifest.v1+json"

/-- The header map built at lines 38-49: `HeaderMap::insert` of the four
headers `USER_AGENT`, `AUTHORIZATION`, `ACCEPT` and `CONTENT_TYPE` (their
canonical lowercase names), in insertion order.  The `AUTHORIZATION`
entry is inserted unconditionally. -/
def header_map (token : Str) : List (Str × Str) :=
  [ (str "user-agent", str "image-mirror"),
    (str "authorization", bearer token),
    (str "accept", accept_value),
    (str "content-type", str "application/json") ]

/-- The URL actually dispatched (lines 50-54): `url.clone()`, replaced by
`url.replace("https", "http")` when `token.len() == 0`. -/
def get_url (url token : Str) : Str :=
  if token.length == 0 then replaceAll url (str "https") (str "http") else url

structure Request where
  url : Str
  headers : List (Str × Str)
deriving DecidableEq

/-- The outbound request of one `get_details` call (lines 37-55):
`client.get(get_url).headers(header_map).send()`.  `none` when the call
panics before dispatch because `HeaderValue::from_str` on the bearer
value failed (line 43 `unwrap`). -/
def dispatchedRequest (url token : Str) : Option Request :=
  if headerValueValid (bearer token) then
    some ⟨get_url url token, header_map token⟩
  else none

/-- What `send().await` produced.  Response header values are modelled as
already-decoded text (`HeaderValue::to_str` assumed to succeed), and the
body read `res.text().await` as an `Except` value. -/
inductive SendResult
  /-- `send()` returned `Err`: transport failure (connection error,
  timeout, DNS failure) before any response was obtained. -/
  | failure (errMsg : Str)
  /-- a response with `status`, the optional `docker-content-digest` and
  `Link` headers, and the result of reading the body as text. -/
  | response (status : Nat) (digest link : Option Str) (body : Except Str Str)

structure ResponseData where
  data : Str
  link : Str
deriving DecidableEq

/-- The places where `get_details` can terminate by a Rust panic rather
than by returning. -/
inductive PanicSite
  /-- line 43: `HeaderValue::from_str(..).unwrap()` on an invalid value. -/
  | invalidAuthHeader
  /-- line 97: `res.as_ref().unwrap()` when `send()` returned `Err`. -/
  | sendUnwrap
  /-- line 59: `headers.get("docker-content-digest").unwrap()` on `None`. -/
  | missingDigestHeader
deriving DecidableEq

/-- How one call of `get_details` terminates. -/
inductive Outcome
  | ok (rd : ResponseData)
  | err (msg : Str)
  | panic (site : PanicSite)
deriving DecidableEq

/-- The numeric part of `reqwest::StatusCode`'s `Display` output; the real
output is the code followed by the canonical reason phrase, and only the
code part matters to any claim. -/
def statusDisplay (status : Nat) : Str := Nat.toDigits 10 status

/-- ASCII model of Rust `str::to_lowercase`. -/
def toLowerStr (s : Str) : Str := s.map Char.toLower

/-- The `link_info` value computed at lines 67-79: the `Link` header with
every `<`, every `>` and every literal `; rel="next"` replaced by the
empty string, or the empty string when the header is absent. -/
def link_info (link : Option Str) : Str :=
  match link with
  | some l =>
      replaceAll
        (replaceAll (replaceAll l (str "<") (str "")) (str ">") (str ""))
        (str "; rel=\"next\"") (str "")
  | none => str ""

/-- The body of `get_details` (lines 31-100) as a function of the inputs
and of the `SendResult` the network produced.  The header map is built
before the send, so an unrepresentable bearer value panics first; the
`else` branch at lines 95-99 unwraps the send result, which panics when
the send itself failed. -/
def get_details (url token : Str) (e_tag : Bool) (w : SendResult) : Outcome :=
  if headerValueValid (bearer token) = true then
    match w with
    | .failure _ => .panic .sendUnwrap
    | .response status digest link body =>
      if (status == 200) = true then
        if e_tag = true then
          match digest with
          | some d => .ok ⟨d, str ""⟩
          | none => .panic .missingDigestHeader
        else
          match body with
          | .ok b => .ok ⟨b, link_info link⟩
          | .error e =>
              .err (str "[get_details] could not read body contents " ++ toLowerStr e)
      else
        .err (str "[get_details] " ++ statusDisplay status)
  else .panic .invalidAuthHeader

theorem isPrefixOf_append_self (l t : Str) : l.isPrefixOf (l ++ t) = true := by
  simp

theorem go_https (t : Str) (fuel : Nat) :
    replaceAllGo (str "https") (str "http") (fuel + 8) (str "https://" ++ t)
      = str "http://" ++ replaceAllGo (str "https") (str "http") (fuel + 4) t := rfl

theorem mem_of_mem_replaceAllGo (pat rep : Str) (x : Char) :
    ∀ (fuel : Nat) (s : Str), x ∈ replaceAllGo pat rep fuel s → x ∈ s ∨ x ∈ rep := by
  intro fuel
  induction fuel with
  | zero =>
    intro s hx
    cases s with
    | nil => simp [replaceAllGo] at hx
    | cons c rest => simp [replaceAllGo] at hx
  | succ n ih =>
    intro s hx
    cases s with
    | nil => simp [replaceAllGo] at hx
    | cons c rest =>
      simp only [replaceAllGo] at hx
      by_cases hp : pat.isPrefixOf (c :: rest) = true ∧ pat ≠ []
      · rw [if_pos hp] at hx
        rcases List.mem_append.mp hx with h | h
        · exact Or.inr h
        · rcases ih _ h with h2 | h2
          · exact Or.inl (List.drop_subset _ _ h2)
          · exact Or.inr h2
      · rw [if_neg hp] at hx
        rcases List.mem_cons.mp hx with h | h
        · exact Or.inl (h ▸ List.mem_cons_self c rest)
        · rcases ih _ h with h2 | h2
          · exact Or.inl (List.mem_cons_of_mem _ h2)
          · exact Or.inr h2

theorem not_mem_replaceAllGo_single (c : Char) (rep : Str) (hc : c ∉ rep) :
    ∀ (fuel : Nat) (s : Str), c ∉ replaceAllGo [c] rep fuel s := by
  intro fuel
  induction fuel with
  | zero =>
    intro s
    cases s with
    | nil => simp [replaceAllGo]
    | cons a rest => simp [replaceAllGo]
  | succ n ih =>
    intro s
    cases s with
    | nil => simp [replaceAllGo]
    | cons a rest =>
      simp only [replaceAllGo]
      by_cases hac : a = c
      · subst hac
        rw [if_pos ⟨by simp [List.isPrefixOf], by simp⟩]
        intro h
        rcases List.mem_append.mp h with h2 | h2
        · exact hc h2
        · exact ih _ h2
      · rw [if_neg]
        · intro h
          rcases List.mem_cons.mp h with h2 | h2
          · exact hac h2.symm
          · exact ih _ h2
        · intro hcontra
          have := hcontra.1
          simp [List.isPrefixOf] at this
          exact hac this.symm

def isSubstrOf (needle hay : Str) : Bool :=
  needle.isPrefixOf hay ||
    match hay with
    | [] => false
    | _ :: t => isSubstrOf needle t

theorem isPrefixOf_self (l : Str) : l.isPrefixOf l = true := by
  simp

theorem isSubstrOf_of_isPrefixOf {n hay : Str} (h : n.isPrefixOf hay = true) :
    isSubstrOf n hay = true := by
  cases hay <;> simp [isSubstrOf, h]

theorem isSubstrOf_append (p n : Str) : isSubstrOf n (p ++ n) = true := by
  induction p with
  | nil => rw [List.nil_append]; exact isSubstrOf_of_isPrefixOf (isPrefixOf_self n)
  | cons a p ih => simp [isSubstrOf, ih]

/-- C1, counterexample: at a call whose send fails with a transport error,
`get_details` terminates by the panic at line 97 (`unwrap` of the `Err`
send result), not by returning an `Err` result as the claim states. -/
theorem C1_counterexample :
    get_details (str "https://registry.example/v2/_catalog") (str "token") false
        (SendResult.failure (str "error sending request: connection refused"))
      = Outcome.panic PanicSite.sendUnwrap := rfl

/-- C1, amended: for every call whose bearer header value is representable
(so that header construction at line 43 does not itself panic), a transport
failure makes `get_details` panic at the `unwrap` of the failed send result
in the `else` branch at line 97; no `Err` result carrying the lower-cased
transport error is ever produced. -/
theorem C1_amended (url token msg : Str) (e_tag : Bool)
    (hv : headerValueValid (bearer token) = true) :
    get_details url token e_tag (SendResult.failure msg)
      = Outcome.panic PanicSite.sendUnwrap := by
  unfold get_details
  rw [if_pos hv]

/-- Witness for `C1_amended` at a concrete input. -/
theorem C1_amended_witness :
    headerValueValid (bearer (str "token")) = true ∧
      get_details (str "https://registry.example/v2/_catalog") (str "token") false
          (SendResult.failure (str "error sending request: connection refused"))
        = Outcome.panic PanicSite.sendUnwrap :=
  ⟨by decide, C1_amended _ _ _ _ (by decide)⟩

/-- C2, counterexample: in digest mode with a 200 response that lacks the
`docker-content-digest` header, `get_details` terminates by the panic at
line 59 (`unwrap` of `headers.get("docker-content-digest")`), not by
returning a `Result`-style error as the claim states. -/
theorem C2_counterexample :
    get_details (str "https://registry.example/v2/img/manifests/latest") (str "token") true
        (SendResult.response 200 none none (Except.ok (str "body")))
      = Outcome.panic PanicSite.missingDigestHeader := rfl

/-- C2, amended: for every call with `extractDigest` true whose bearer
header value is representable, a 200 response without the
`docker-content-digest` header makes `get_details` panic at the `unwrap`
of the absent header; no error value reaches the caller. -/
theorem C2_amended (url token : Str) (link : Option Str) (body : Except Str Str)
    (hv : headerValueValid (bearer token) = true) :
    get_details url token true (SendResult.response 200 none link body)
      = Outcome.panic PanicSite.missingDigestHeader := by
  unfold get_details
  rw [if_pos hv]
  rfl

/-- Witness for `C2_amended` at a concrete input. -/
theorem C2_amended_witness :
    headerValueValid (bearer (str "token")) = true ∧
      get_details (str "https://registry.example/v2/img/manifests/latest") (str "token") true
          (SendResult.response 200 none none (Except.ok (str "body")))
        = Outcome.panic PanicSite.missingDigestHeader :=
  ⟨by decide, C2_amended _ _ _ _ (by decide)⟩

/-- C3, counterexample: with an empty token the dispatched request still
carries an `Authorization` header, with value `Bearer ` (trailing space),
contradicting the claimed "if and only if token is non-empty". -/
theorem C3_counterexample :
    (dispatchedRequest (str "https://registry.example/v2/_catalog") (str "")).map Request.headers
        = some (header_map (str "")) ∧
      (str "authorization", str "Bearer ") ∈ header_map (str "") := by
  constructor
  · rfl
  · decide

/-- C3, amended: every dispatched request of `get_details` carries the
`Authorization: Bearer <token>` header unconditionally (so `Bearer ` with
a trailing space when the token is empty), together with the fixed
`User-Agent`, `Accept` and `Content-Type` headers. -/
theorem C3_amended (url token : Str) (r : Request)
    (h : dispatchedRequest url token = some r) :
    (str "authorization", bearer token) ∈ r.headers ∧
      (str "user-agent", str "image-mirror") ∈ r.headers ∧
      (str "accept", accept_value) ∈ r.headers ∧
      (str "content-type", str "application/json") ∈ r.headers := by
  unfold dispatchedRequest at h
  by_cases hv : headerValueValid (bearer token) = true
  · rw [if_pos hv] at h
    injection h with h
    subst h
    exact ⟨.tail _ (.head _), .head _, .tail _ (.tail _ (.head _)),
      .tail _ (.tail _ (.tail _ (.head _)))⟩
  · rw [if_neg hv] at h
    exact Option.noConfusion h

/-- Witness for `C3_amended` at a concrete input. -/
theorem C3_amended_witness :
    (str "authorization", bearer (str "token")) ∈ (header_map (str "token")) ∧
      (str "user-agent", str "image-mirror") ∈ (header_map (str "token")) ∧
      (str "accept", accept_value) ∈ (header_map (str "token")) ∧
      (str "content-type", str "application/json") ∈ (header_map (str "token")) :=
  C3_amended (str "https://registry.example/v2/_catalog") (str "token")
    ⟨str "https://registry.example/v2/_catalog", header_map (str "token")⟩ (by decide)

/-- C4: for every call with empty token the dispatched URL of an `https`
URL starts with the `http` scheme, and for every call with a non-empty
token the URL is dispatched unmodified. -/
theorem C4_spec (url rest token : Str) (c : Char) :
    List.isPrefixOf (str "http://") (get_url (str "https://" ++ rest) (str "")) = true ∧
      get_url url (c :: token) = url := by
  constructor
  · have h : replaceAll (str "https://" ++ rest) (str "https") (str "http")
        = str "http://" ++ replaceAllGo (str "https") (str "http") (rest.length + 4) rest :=
      go_https rest rest.length
    have hu : get_url (str "https://" ++ rest) (str "")
        = replaceAll (str "https://" ++ rest) (str "https") (str "http") := rfl
    rw [hu, h]
    exact isPrefixOf_append_self _ _
  · rfl

/-- C5: for every body-mode call whose bearer header value is representable,
a 200 response with a readable body yields `Ok` with `data` the body text
and `link` the processed `Link` header (`link_info`); an unreadable body
yields an `Err` whose message carries the lower-cased underlying cause;
an absent `Link` header gives the empty link, and a present one is
stripped of angle brackets and of the `; rel="next"` annotation. -/
theorem C5_spec (url token b e : Str) (digest link : Option Str)
    (hv : headerValueValid (bearer token) = true) :
    get_details url token false (SendResult.response 200 digest link (Except.ok b))
        = Outcome.ok ⟨b, link_info link⟩ ∧
      get_details url token false (SendResult.response 200 digest link (Except.error e))
        = Outcome.err (str "[get_details] could not read body contents " ++ toLowerStr e) ∧
      link_info none = str "" ∧
      link_info (some (str "</v2/_catalog?last=x>; rel=\"next\"")) = str "/v2/_catalog?last=x" := by
  refine ⟨?_, ?_, rfl, by decide⟩
  · unfold get_details
    rw [if_pos hv]
    rfl
  · unfold get_details
    rw [if_pos hv]
    rfl

/-- Witness for `C5_spec` at a concrete input. -/
theorem C5_witness :
    headerValueValid (bearer (str "token")) = true ∧
      get_details (str "http://registry.example/v2/img/tags/list") (str "token") false
          (SendResult.response 200 none (some (str "</v2/_catalog?last=x>; rel=\"next\"")) (Except.ok (str "page1")))
        = Outcome.ok ⟨str "page1", link_info (some (str "</v2/_catalog?last=x>; rel=\"next\""))⟩ :=
  ⟨by decide,
    (C5_spec (str "http://registry.example/v2/img/tags/list") (str "token") (str "page1") (str "")
      none (some (str "</v2/_catalog?last=x>; rel=\"next\"")) (by decide)).1⟩

/-- C6: for every digest-mode call whose bearer header value is
representable, a 200 response carrying the `docker-content-digest` header
yields `Ok` with `data` the exact header value and `link` empty; and in
digest mode every `Ok` outcome has an empty `link`, whatever the send
produced. -/
theorem C6_spec (url token d : Str) (link : Option Str) (body : Except Str Str)
    (w : SendResult) (rd : ResponseData)
    (hv : headerValueValid (bearer token) = true) :
    get_details url token true (SendResult.response 200 (some d) link body)
        = Outcome.ok ⟨d, str ""⟩ ∧
      (get_details url token true w = Outcome.ok rd → rd.link = str "") := by
  constructor
  · unfold get_details
    rw [if_pos hv]
    rfl
  · intro h
    cases w with
    | failure m => simp [get_details, hv] at h
    | response s dg l b =>
      simp [get_details, hv] at h
      split at h
      · split at h
        · injection h with h4
          rw [← h4]
        · exact Outcome.noConfusion h
      · exact Outcome.noConfusion h

/-- Witness for `C6_spec` at a concrete input (Scenario C of the spec). -/
theorem C6_witness :
    headerValueValid (bearer (str "token")) = true ∧
      get_details (str "http://registry.example/v2/img/manifests/latest") (str "token") true
          (SendResult.response 200 (some (str "sha256:abc")) none (Except.ok (str "")))
        = Outcome.ok ⟨str "sha256:abc", str ""⟩ :=
  ⟨by decide,
    (C6_spec (str "http://registry.example/v2/img/manifests/latest") (str "token")
      (str "sha256:abc") none (Except.ok (str ""))
      (SendResult.response 200 (some (str "sha256:abc")) none (Except.ok (str "")))
      ⟨str "sha256:abc", str ""⟩ (by decide)).1⟩

/-- C7: for every call whose bearer header value is representable and
which receives a response with a status other than 200, `get_details`
returns an `Err` whose message contains the decimal status code; the one
send is the only request made, so nothing is retried. -/
theorem C7_spec (url token : Str) (e_tag : Bool) (s : Nat) (digest link : Option Str)
    (body : Except Str Str)
    (hv : headerValueValid (bearer token) = true) (hs : s ≠ 200) :
    get_details url token e_tag (SendResult.response s digest link body)
        = Outcome.err (str "[get_details] " ++ statusDisplay s) ∧
      isSubstrOf (Nat.toDigits 10 s) (str "[get_details] " ++ statusDisplay s) = true := by
  constructor
  · unfold get_details
    rw [if_pos hv]
    have hns : ¬((s == 200) = true) := by simp [hs]
    exact if_neg hns
  · exact isSubstrOf_append _ _

/-- Witness for `C7_spec` at status 500 (Scenario B of the spec). -/
theorem C7_witness :
    headerValueValid (bearer (str "token")) = true ∧ (500 : Nat) ≠ 200 ∧
      (get_details (str "http://registry.example/v2/manifests") (str "token") false
          (SendResult.response 500 none none (Except.ok (str "")))
        = Outcome.err (str "[get_details] " ++ statusDisplay 500) ∧
      isSubstrOf (Nat.toDigits 10 500) (str "[get_details] " ++ statusDisplay 500) = true) :=
  ⟨by decide, by decide,
    C7_spec (str "http://registry.example/v2/manifests") (str "token") false 500 none none
      (Except.ok (str "")) (by decide) (by decide)⟩

/-- C8: with an empty token the dispatched URL is the supplied URL with
every occurrence of the substring `https` replaced by `http`; in
particular occurrences in the path and in a query parameter are replaced
along with the scheme. -/
theorem C8_spec (url : Str) :
    get_url url (str "") = replaceAll url (str "https") (str "http") ∧
      get_url (str "https://registry.example/v2/https-images?next=https://registry.example/p2") (str "")
        = str "http://registry.example/v2/http-images?next=http://registry.example/p2" :=
  ⟨rfl, by decide⟩

/-- C9: a non-empty token containing a newline (not a legal header-value
character) makes `get_details` panic at line 43 while building the
`Authorization` header, whatever the mode and whatever the network would
have produced; no `Err` result is returned. -/
theorem C9_spec (e_tag : Bool) (w : SendResult) :
    get_details (str "https://registry.example/v2/_catalog") (str "a\nb") e_tag w
      = Outcome.panic PanicSite.invalidAuthHeader := rfl

/-- C10: the returned `link` of a body-mode 200 call contains no `<` and
no `>` character at all, wherever they appeared in the `Link` header; and
angle brackets and `; rel="next"` annotations are removed at every
position, not only around one enclosing pair and one trailing
annotation. -/
theorem C10_spec (l : Str) :
    List.count '<' (link_info (some l)) = 0 ∧
      List.count '>' (link_info (some l)) = 0 ∧
      link_info (some (str "<u1>; rel=\"next\",<u2>; rel=\"next\"")) = str "u1,u2" := by
  refine ⟨List.count_eq_zero.mpr ?_, List.count_eq_zero.mpr ?_, by decide⟩
  · intro h
    rcases mem_of_mem_replaceAllGo _ _ _ _ _ h with h1 | h1
    · rcases mem_of_mem_replaceAllGo _ _ _ _ _ h1 with h2 | h2
      · exact not_mem_replaceAllGo_single '<' (str "") (by decide) _ _ h2
      · exact absurd h2 (by decide)
    · exact absurd h1 (by decide)
  · intro h
    rcases mem_of_mem_replaceAllGo _ _ _ _ _ h with h1 | h1
    · exact not_mem_replaceAllGo_single '>' (str "") (by decide) _ _ h1
    · exact absurd h1 (by decide)
